import Mathlib

/-!
Verification of the pooling test-fixture catalog
(`python/torch_mlir_e2e_test/test_suite/pooling.py`).

The file under verification is a declarative catalog: each entry pairs a
module (one pooling configuration plus a shape/dtype contract on its
inputs) with a registered invocation case that generates concrete input
tensors and runs the module's forward computation.  The pooling operators
themselves are executed by the external tensor runtime; their semantics
are modelled here from the specification (output-size formula, max with
first-encountered tie-breaking and flat index tracking, scatter-add
backward, average with an optional divisor override, adaptive averaging).
All module parameters, annotated contracts and generated tensor shapes
are transcribed from the source file.
-/

namespace Pooling

/-- Element type of a tensor, as used by the catalog (float32 or int64). -/
inductive DType where
  | float32
  | int64
deriving DecidableEq, Repr

/-- One annotated argument of a module's forward entry point: a shape
pattern (fixed positive extents or `-1` wildcards meaning dynamic) and an
element type.  Transcribed from the `annotate_args` lists. -/
structure ArgAnn where
  pattern : List Int
  dtype : DType
deriving DecidableEq, Repr

/-- One tensor produced by an invocation case's data generator: its
concrete shape and element type.  Shapes are transcribed from the
`tu.rand` / `torch.randint` / `torch.ones` calls; `tu.rand` and
`torch.ones` produce float32 tensors, `torch.randint` produces int64. -/
structure GenTensor where
  shape : List Nat
  dtype : DType
deriving DecidableEq, Repr

/-- A fixed annotated dimension must match exactly; the wildcard `-1`
accepts any positive size. -/
def dimOk (p : Int) (d : Nat) : Prop :=
  if p = -1 then 0 < d else (d : Int) = p

instance (p : Int) (d : Nat) : Decidable (dimOk p d) := by
  unfold dimOk; infer_instance

/-- A generated tensor satisfies one annotated argument: same rank, same
dtype, and every dimension satisfies `dimOk`. -/
def argOk (a : ArgAnn) (t : GenTensor) : Prop :=
  a.pattern.length = t.shape.length ∧ a.dtype = t.dtype ∧
    ∀ k < a.pattern.length, dimOk (a.pattern.getD k 0) (t.shape.getD k 0)

instance (a : ArgAnn) (t : GenTensor) : Decidable (argOk a t) := by
  unfold argOk; infer_instance

/-- A registered case is consistent when the generated tensors match the
referenced module's annotated input contract argument by argument. -/
def caseOk (anns : List ArgAnn) (gens : List GenTensor) : Prop :=
  anns.length = gens.length ∧
    ∀ k < anns.length,
      argOk (anns.getD k ⟨[], .float32⟩) (gens.getD k ⟨[], .float32⟩)

instance (anns : List ArgAnn) (gens : List GenTensor) :
    Decidable (caseOk anns gens) := by
  unfold caseOk; infer_instance

/-- Shorthand for a fully dynamic rank-4 float32 annotated argument. -/
def dyn4f : ArgAnn := ⟨[-1, -1, -1, -1], .float32⟩

/-- Shorthand for a fully dynamic rank-3 float32 annotated argument. -/
def dyn3f : ArgAnn := ⟨[-1, -1, -1], .float32⟩

/-- Every registered invocation case of the catalog, paired with the
annotated contract of the module it references.  One entry per
`register_test_case` in the source, in source order. -/
def testCases : List (List ArgAnn × List GenTensor) :=
  [ -- AdaptiveAvgPool2dModule_basic
    ([dyn4f], [⟨[10, 3, 8, 9], .float32⟩]),
    -- MaxPool2dModule_basic
    ([dyn4f], [⟨[1, 1, 20, 20], .float32⟩]),
    -- MaxPool2dStaticModule_basic
    ([⟨[1, 64, 112, 112], .float32⟩], [⟨[1, 64, 112, 112], .float32⟩]),
    -- MaxPool2dWith3dInputModule_basic
    ([dyn3f], [⟨[1, 20, 20], .float32⟩]),
    -- MaxPool2dWithIndicesModule_basic
    ([dyn4f], [⟨[1, 1, 8, 8], .float32⟩]),
    -- MaxPool2dWithIndicesFullSizeKernelModule_basic
    ([dyn4f], [⟨[2, 3, 4, 4], .float32⟩]),
    -- MaxPool2dWithIndicesNonDefaultPaddingModule_basic
    ([dyn4f], [⟨[2, 4, 16, 16], .float32⟩]),
    -- MaxPool2dWithIndicesNonDefaultStrideModule_basic
    ([dyn4f], [⟨[1, 4, 16, 80], .float32⟩]),
    -- MaxPool2dWithIndicesNonDefaultDilationModule_basic
    ([dyn4f], [⟨[1, 4, 16, 80], .float32⟩]),
    -- MaxPool2dWithIndicesNonDefaultParamsModule_basic
    ([dyn4f], [⟨[1, 4, 16, 80], .float32⟩]),
    -- MaxPool2dWithIndicesAllNegativeValuesModule_basic
    ([dyn4f], [⟨[2, 4, 16, 16], .float32⟩]),
    -- MaxPool2dWithIndicesStaticModule_basic
    ([⟨[2, 4, 16, 16], .float32⟩], [⟨[2, 4, 16, 16], .float32⟩]),
    -- MaxPool2dWithIndicesAllOnesModule_basic
    ([dyn4f], [⟨[1, 1, 8, 8], .float32⟩]),
    -- MaxPool2dWithIndicesWith3dInputModule_basic
    ([dyn3f], [⟨[1, 8, 8], .float32⟩]),
    -- MaxPool2dWithIndicesBackwardStatic4DModule_basic
    ([⟨[2, 4, 7, 6], .float32⟩, ⟨[2, 4, 6, 5], .float32⟩,
      ⟨[2, 4, 7, 6], .int64⟩],
     [⟨[2, 4, 7, 6], .float32⟩, ⟨[2, 4, 6, 5], .float32⟩,
      ⟨[2, 4, 7, 6], .int64⟩]),
    -- MaxPool2dWithIndicesBackwardStatic3DModule_basic
    ([⟨[4, 7, 6], .float32⟩, ⟨[4, 6, 5], .float32⟩, ⟨[4, 7, 6], .int64⟩],
     [⟨[4, 7, 6], .float32⟩, ⟨[4, 6, 5], .float32⟩, ⟨[4, 7, 6], .int64⟩]),
    -- MaxPool2dWithIndicesBackwardDynamic4DModule_basic
    ([dyn4f, dyn4f, ⟨[-1, -1, -1, -1], .int64⟩],
     [⟨[2, 4, 7, 6], .float32⟩, ⟨[2, 4, 6, 5], .float32⟩,
      ⟨[2, 4, 7, 6], .int64⟩]),
    -- MaxPool2dWithIndicesBackwardDynamic3DModule_basic
    ([dyn3f, dyn3f, ⟨[-1, -1, -1], .int64⟩],
     [⟨[2, 7, 6], .float32⟩, ⟨[2, 6, 5], .float32⟩, ⟨[2, 7, 6], .int64⟩]),
    -- AvgPool2dFloatModule_basic
    ([dyn4f], [⟨[2, 4, 20, 20], .float32⟩]),
    -- AvgPool2dIntModule_basic
    ([⟨[-1, -1, -1, -1], .int64⟩], [⟨[2, 4, 20, 20], .int64⟩]),
    -- AvgPool2dStaticModule_basic
    ([⟨[2, 2, 10, 20], .float32⟩], [⟨[2, 2, 10, 20], .float32⟩]),
    -- AvgPool2dDivisorOverrideModule_basic
    ([⟨[4, 4, 20, 20], .float32⟩], [⟨[4, 4, 20, 20], .float32⟩]) ]

/-- Parameters of a (max) 2-d pooling configuration: kernel, stride,
padding and dilation per spatial dimension, and the ceil-mode flag. -/
structure PoolCfg where
  kH : Nat
  kW : Nat
  sH : Nat
  sW : Nat
  pH : Nat
  pW : Nat
  dH : Nat
  dW : Nat
  ceilMode : Bool
deriving DecidableEq, Repr

/-- Modelled from the spec: the standard pooling output-size formula,
`floor((size + 2*padding - dilation*(kernel-1) - 1) / stride) + 1`,
used with floor because no module of the catalog enables ceil mode. -/
def outDimFloor (size k s p d : Nat) : Nat :=
  (size + 2 * p - d * (k - 1) - 1) / s + 1

/-- Modelled from the spec: number of pooling windows that fit, counted
operationally.  A window with start position `i` (in coordinates of the
padded input, stride `s`) covers padded positions `i*s` through
`i*s + d*(k-1)`; it fits when that last position is inside the padded
input of extent `size + 2*p`. -/
def numWindows (size k s p d : Nat) : Nat :=
  ((Finset.range (size + 2 * p)).filter
    (fun i => i * s + d * (k - 1) + 1 ≤ size + 2 * p)).card

/-- Every forward pooling module of the catalog that exposes
kernel/stride/padding/dilation parameters, with its configuration as
transcribed from the source (dilation defaults to 1 for the average
pooling modules, which have no dilation parameter). -/
def poolCfgCatalog : List PoolCfg :=
  [ ⟨6, 8, 2, 2, 3, 4, 2, 2, false⟩,   -- MaxPool2dModule
    ⟨3, 3, 2, 2, 1, 1, 1, 1, false⟩,   -- MaxPool2dStaticModule
    ⟨6, 8, 2, 2, 3, 4, 2, 2, false⟩,   -- MaxPool2dWith3dInputModule
    ⟨2, 2, 1, 1, 0, 0, 1, 1, false⟩,   -- MaxPool2dWithIndicesModule
    ⟨4, 4, 1, 1, 0, 0, 1, 1, false⟩,   -- ...FullSizeKernelModule
    ⟨4, 8, 1, 1, 2, 4, 1, 1, false⟩,   -- ...NonDefaultPaddingModule
    ⟨4, 4, 1, 2, 0, 0, 1, 1, false⟩,   -- ...NonDefaultStrideModule
    ⟨4, 4, 1, 1, 0, 0, 2, 2, false⟩,   -- ...NonDefaultDilationModule
    ⟨8, 4, 2, 2, 1, 2, 2, 2, false⟩,   -- ...NonDefaultParamsModule
    ⟨4, 8, 1, 1, 2, 4, 1, 1, false⟩,   -- ...AllNegativeValuesModule
    ⟨4, 8, 1, 1, 2, 4, 1, 1, false⟩,   -- ...StaticModule
    ⟨2, 2, 1, 1, 0, 0, 1, 1, false⟩,   -- ...AllOnesModule
    ⟨2, 2, 1, 1, 0, 0, 1, 1, false⟩,   -- ...With3dInputModule
    ⟨6, 8, 2, 2, 3, 4, 1, 1, false⟩,   -- AvgPool2dFloatModule
    ⟨6, 8, 2, 2, 3, 4, 1, 1, false⟩,   -- AvgPool2dIntModule
    ⟨6, 8, 2, 2, 3, 4, 1, 1, false⟩,   -- AvgPool2dStaticModule
    ⟨4, 8, 2, 3, 2, 4, 1, 1, false⟩ ]  -- AvgPool2dDivisorOverrideModule

/-- A rank-4 tensor (batch, channel, height, width) with rational values;
out-of-range positions are irrelevant to every statement below. -/
structure Tensor4 where
  N : Nat
  C : Nat
  H : Nat
  W : Nat
  val : Nat → Nat → Nat → Nat → ℚ

/-- A rank-4 index tensor (natural-number values), the second result of
max pooling with indices. -/
structure Tensor4I where
  N : Nat
  C : Nat
  H : Nat
  W : Nat
  val : Nat → Nat → Nat → Nat → Nat

/-- A rank-3 tensor (channel, height, width) with rational values, for
the modules annotated with rank-3 inputs. -/
structure Tensor3 where
  C : Nat
  H : Nat
  W : Nat
  val : Nat → Nat → Nat → ℚ

/-- Value of a spatial plane extended by zero padding: the plane value
inside bounds, zero outside.  Average pooling pads with zeros. -/
def paddedVal (x : Nat → Nat → ℚ) (H W : Nat) (h w : Int) : ℚ :=
  if 0 ≤ h ∧ h < (H : Int) ∧ 0 ≤ w ∧ w < (W : Int) then x h.toNat w.toNat
  else 0

/-- Modelled from the spec: the list of input-plane coordinates covered
by the pooling window of output position `(i, j)`, in scan order (kernel
rows outer, kernel columns inner), before bounds filtering.  Coordinates
are integers because padding can push them negative. -/
def windowCoords (cfg : PoolCfg) (i j : Nat) : List (Int × Int) :=
  (List.range cfg.kH).flatMap fun ki =>
    (List.range cfg.kW).map fun kj =>
      (((i * cfg.sH + ki * cfg.dH : Nat) : Int) - (cfg.pH : Int),
       ((j * cfg.sW + kj * cfg.dW : Nat) : Int) - (cfg.pW : Int))

/-- Whether an integer coordinate pair lies inside an `H × W` plane. -/
def inBounds (H W : Nat) (p : Int × Int) : Bool :=
  decide (0 ≤ p.1) && decide (p.1 < (H : Int)) &&
    decide (0 ≤ p.2) && decide (p.2 < (W : Int))

/-- The in-bounds window elements of output position `(i, j)`, each as a
pair of its flat index `h * W + w` into the input plane and its value,
in scan order. -/
def windowCands (cfg : PoolCfg) (x : Nat → Nat → ℚ) (H W i j : Nat) :
    List (Nat × ℚ) :=
  ((windowCoords cfg i j).filter (inBounds H W)).map fun p =>
    (p.1.toNat * W + p.2.toNat, x p.1.toNat p.2.toNat)

/-- Modelled from the spec: first-encountered maximum of a candidate
list.  An element is kept over a later one unless the later value is
strictly greater, so ties resolve to the earliest element in scan
order. -/
def pickMax : List (Nat × ℚ) → Option (Nat × ℚ)
  | [] => none
  | p :: rest =>
    match pickMax rest with
    | none => some p
    | some m => some (if p.2 < m.2 then m else p)

/-- The (flat index, value) pair selected by max pooling at output
position `(i, j)`; `(0, 0)` when the window has no in-bounds element
(which never happens for valid configurations). -/
def maxPoolEntry (cfg : PoolCfg) (x : Nat → Nat → ℚ) (H W i j : Nat) :
    Nat × ℚ :=
  (pickMax (windowCands cfg x H W i j)).getD (0, 0)

/-- Modelled from the spec: `max_pool2d_with_indices` on a rank-4
tensor.  Returns the pooled output and, per output element, the flat
index (into the input spatial plane) of the selected maximal input
element. -/
def maxPool2dWithIndices (cfg : PoolCfg) (t : Tensor4) :
    Tensor4 × Tensor4I :=
  let oH := outDimFloor t.H cfg.kH cfg.sH cfg.pH cfg.dH
  let oW := outDimFloor t.W cfg.kW cfg.sW cfg.pW cfg.dW
  (⟨t.N, t.C, oH, oW,
     fun n c i j => (maxPoolEntry cfg (t.val n c) t.H t.W i j).2⟩,
   ⟨t.N, t.C, oH, oW,
     fun n c i j => (maxPoolEntry cfg (t.val n c) t.H t.W i j).1⟩)

/-- Forward of `MaxPool2dWithIndicesStaticModule`: `max_pool2d_with_indices`
with kernel `[4, 8]`, stride `[1, 1]`, padding `[2, 4]`, dilation 1. -/
def maxPool2dWithIndicesStaticModule_forward (x : Tensor4) :
    Tensor4 × Tensor4I :=
  maxPool2dWithIndices ⟨4, 8, 1, 1, 2, 4, 1, 1, false⟩ x

/-- Forward of `MaxPool2dWithIndicesAllNegativeValuesModule`:
`max_pool2d_with_indices` with kernel `[4, 8]`, stride `[1, 1]`,
padding `[2, 4]`, dilation 1. -/
def maxPool2dWithIndicesAllNegativeValuesModule_forward (x : Tensor4) :
    Tensor4 × Tensor4I :=
  maxPool2dWithIndices ⟨4, 8, 1, 1, 2, 4, 1, 1, false⟩ x

/-- Configuration of `MaxPool2dWithIndicesAllOnesModule`: kernel
`[2, 2]`, stride `[1, 1]`, padding `[0, 0]`, dilation `[1, 1]`. -/
def allOnesCfg : PoolCfg := ⟨2, 2, 1, 1, 0, 0, 1, 1, false⟩

/-- The all-ones `1 × 1 × 8 × 8` input of
`MaxPool2dWithIndicesAllOnesModule_basic`. -/
def allOnesInput : Tensor4 := ⟨1, 1, 8, 8, fun _ _ _ _ => 1⟩

/-- The configurations of the ten max-pool-with-indices modules of the
catalog, in source order. -/
def withIndicesCfgCatalog : List PoolCfg :=
  [ ⟨2, 2, 1, 1, 0, 0, 1, 1, false⟩,   -- MaxPool2dWithIndicesModule
    ⟨4, 4, 1, 1, 0, 0, 1, 1, false⟩,   -- ...FullSizeKernelModule
    ⟨4, 8, 1, 1, 2, 4, 1, 1, false⟩,   -- ...NonDefaultPaddingModule
    ⟨4, 4, 1, 2, 0, 0, 1, 1, false⟩,   -- ...NonDefaultStrideModule
    ⟨4, 4, 1, 1, 0, 0, 2, 2, false⟩,   -- ...NonDefaultDilationModule
    ⟨8, 4, 2, 2, 1, 2, 2, 2, false⟩,   -- ...NonDefaultParamsModule
    ⟨4, 8, 1, 1, 2, 4, 1, 1, false⟩,   -- ...AllNegativeValuesModule
    ⟨4, 8, 1, 1, 2, 4, 1, 1, false⟩,   -- ...StaticModule
    ⟨2, 2, 1, 1, 0, 0, 1, 1, false⟩,   -- ...AllOnesModule
    ⟨2, 2, 1, 1, 0, 0, 1, 1, false⟩ ]  -- ...With3dInputModule

/-- The output positions of an `oH × oW` pooled plane, row major. -/
def outPositions (oH oW : Nat) : List (Nat × Nat) :=
  (List.range oH).flatMap fun i => (List.range oW).map fun j => (i, j)

/-- Modelled from the spec: one scatter-add step of the max-pool
backward pass.  The upstream gradient of output position `q` is added to
the accumulator slot addressed by the recorded flat index
`indices q` , i.e. row `indices q / W`, column `indices q % W` of the
input-gradient plane. -/
def scatterStep (W : Nat) (indices : Nat → Nat → Nat)
    (g : Nat → Nat → ℚ) (acc : Nat → Nat → ℚ) (q : Nat × Nat) :
    Nat → Nat → ℚ :=
  fun h w =>
    if h = indices q.1 q.2 / W ∧ w = indices q.1 q.2 % W then
      acc h w + g q.1 q.2
    else acc h w

/-- Modelled from the spec: the input-gradient plane of the max-pool
backward pass, built by scatter-adding every upstream gradient value to
the position its recorded index points to, starting from all zeros. -/
def maxPoolBwdPlane (W oH oW : Nat) (indices : Nat → Nat → Nat)
    (g : Nat → Nat → ℚ) : Nat → Nat → ℚ :=
  (outPositions oH oW).foldl (scatterStep W indices g) (fun _ _ => 0)

/-- Modelled from the spec: `max_pool2d_with_indices_backward` on rank-4
tensors.  Given the upstream gradient, the forward input and the index
tensor, it reconstructs the input gradient; the configuration only fixes
the operator variant, the scatter itself is driven by the indices. -/
def maxPool2dWithIndicesBwd (_cfg : PoolCfg) (gradOut t : Tensor4)
    (indices : Nat → Nat → Nat → Nat → Nat) : Tensor4 :=
  ⟨t.N, t.C, t.H, t.W,
   fun n c =>
     maxPoolBwdPlane t.W gradOut.H gradOut.W (indices n c)
       (gradOut.val n c)⟩

/-- Modelled from the spec: `max_pool2d_with_indices_backward` on rank-3
tensors (no batch dimension). -/
def maxPool2dWithIndicesBwd3 (_cfg : PoolCfg) (gradOut t : Tensor3)
    (indices : Nat → Nat → Nat → Nat) : Tensor3 :=
  ⟨t.C, t.H, t.W,
   fun c =>
     maxPoolBwdPlane t.W gradOut.H gradOut.W (indices c)
       (gradOut.val c)⟩

/-- The shared configuration of the four backward modules: kernel
`[2, 2]`, stride `[1, 1]`, padding `[1, 1]`, dilation `[1, 1]`,
ceil mode false. -/
def bwdCfg : PoolCfg := ⟨2, 2, 1, 1, 1, 1, 1, 1, false⟩

/-- Data of one backward invocation case: the generated upstream
gradient, forward input and index tensor shapes, and the exclusive upper
bound passed to `torch.randint` when generating the index tensor. -/
structure BwdCase where
  gradShape : List Nat
  inShape : List Nat
  idxShape : List Nat
  idxBound : Nat
deriving DecidableEq, Repr

/-- The four backward invocation cases, transcribed from the source
(static 4D, static 3D, dynamic 4D, dynamic 3D). -/
def bwdCases : List BwdCase :=
  [ ⟨[2, 4, 7, 6], [2, 4, 6, 5], [2, 4, 7, 6], 16⟩,
    ⟨[4, 7, 6], [4, 6, 5], [4, 7, 6], 16⟩,
    ⟨[2, 4, 7, 6], [2, 4, 6, 5], [2, 4, 7, 6], 16⟩,
    ⟨[2, 7, 6], [2, 6, 5], [2, 7, 6], 16⟩ ]

/-- Parameters of a 2-d average pooling configuration. -/
structure AvgCfg where
  kH : Nat
  kW : Nat
  sH : Nat
  sW : Nat
  pH : Nat
  pW : Nat
  ceilMode : Bool
  countIncludePad : Bool
  divisorOverride : Option Nat
deriving DecidableEq, Repr

/-- Modelled from the spec: the sum of the pooling window of output
position `(i, j)`, over the zero-padded input plane. -/
def avgWindowSum (cfg : AvgCfg) (x : Nat → Nat → ℚ) (H W i j : Nat) : ℚ :=
  ∑ ki ∈ Finset.range cfg.kH, ∑ kj ∈ Finset.range cfg.kW,
    paddedVal x H W
      (((i * cfg.sH + ki : Nat) : Int) - (cfg.pH : Int))
      (((j * cfg.sW + kj : Nat) : Int) - (cfg.pW : Int))

/-- Modelled from the spec: the averaging denominator.  The divisor
override, when present, is a fixed constant used regardless of window
position; otherwise the count of window elements (the full kernel
extent when padding counts, the in-bounds elements when it does not). -/
def avgDivisor (cfg : AvgCfg) (H W i j : Nat) : ℚ :=
  match cfg.divisorOverride with
  | some d => (d : ℚ)
  | none =>
    if cfg.countIncludePad then ((cfg.kH * cfg.kW : Nat) : ℚ)
    else
      (((Finset.range cfg.kH ×ˢ Finset.range cfg.kW).filter fun p =>
        inBounds H W
          (((i * cfg.sH + p.1 : Nat) : Int) - (cfg.pH : Int),
           ((j * cfg.sW + p.2 : Nat) : Int) - (cfg.pW : Int))).card : ℚ)

/-- Modelled from the spec: `AvgPool2d` on a rank-4 tensor. -/
def avgPool2d (cfg : AvgCfg) (t : Tensor4) : Tensor4 :=
  ⟨t.N, t.C,
   outDimFloor t.H cfg.kH cfg.sH cfg.pH 1,
   outDimFloor t.W cfg.kW cfg.sW cfg.pW 1,
   fun n c i j =>
     avgWindowSum cfg (t.val n c) t.H t.W i j /
       avgDivisor cfg t.H t.W i j⟩

/-- Configuration of `AvgPool2dDivisorOverrideModule`: kernel `[4, 8]`,
stride `[2, 3]`, padding `[2, 4]`, ceil mode false, count-include-pad
true, divisor override 22. -/
def divisorOverrideCfg : AvgCfg := ⟨4, 8, 2, 3, 2, 4, false, true, some 22⟩

/-- Modelled from the spec: start of the adaptive pooling segment `i`
of `out` segments over an extent of `size`: `floor(i * size / out)`. -/
def adaptiveStart (i size out : Nat) : Nat := i * size / out

/-- Modelled from the spec: end (exclusive) of the adaptive pooling
segment `i`: `ceil((i + 1) * size / out)`. -/
def adaptiveEnd (i size out : Nat) : Nat := ((i + 1) * size + out - 1) / out

/-- Modelled from the spec: `AdaptiveAvgPool2d` to output size
`(oH, oW)`: each output element averages its adaptive segment of the
input plane. -/
def adaptiveAvgPool2d (oH oW : Nat) (t : Tensor4) : Tensor4 :=
  ⟨t.N, t.C, oH, oW,
   fun n c i j =>
     (∑ h ∈ Finset.Ico (adaptiveStart i t.H oH) (adaptiveEnd i t.H oH),
      ∑ w ∈ Finset.Ico (adaptiveStart j t.W oW) (adaptiveEnd j t.W oW),
        t.val n c h w) /
       (((adaptiveEnd i t.H oH - adaptiveStart i t.H oH) *
         (adaptiveEnd j t.W oW - adaptiveStart j t.W oW) : Nat) : ℚ)⟩

/-- Forward of `AdaptiveAvgPool2dModule`: `AdaptiveAvgPool2d((1, 1))`. -/
def adaptiveAvgPool2dModule_forward (x : Tensor4) : Tensor4 :=
  adaptiveAvgPool2d 1 1 x

/-- Concrete all-ones `4 × 4 × 20 × 20` tensor, an input satisfying the
contract of `AvgPool2dDivisorOverrideModule`. -/
def onesInput20 : Tensor4 := ⟨4, 4, 20, 20, fun _ _ _ _ => 1⟩

/-- Concrete all-negative `2 × 4 × 16 × 16` tensor, an input satisfying
the contracts of the static and all-negative with-indices modules. -/
def negInput16 : Tensor4 := ⟨2, 4, 16, 16, fun _ _ _ _ => -1⟩

/-- Concrete tensors for instantiating the backward pass: upstream
gradient of shape `2 × 4 × 7 × 6`, forward input of shape
`2 × 4 × 6 × 5`, and a constant index tensor. -/
def bwdGrad : Tensor4 := ⟨2, 4, 7, 6, fun _ _ _ _ => 1⟩

/-- Forward-input tensor for instantiating the backward pass. -/
def bwdIn : Tensor4 := ⟨2, 4, 6, 5, fun _ _ _ _ => 1⟩

/-- Constant index tensor for instantiating the backward pass. -/
def bwdIdx : Nat → Nat → Nat → Nat → Nat := fun _ _ _ _ => 7

/-- Unfolding a scatter-add fold: the value of one slot after folding a
list of output positions is its initial value plus the sum of the
upstream-gradient contributions of the positions whose index addresses
that slot. -/
theorem foldl_scatterStep (W : Nat) (indices : Nat → Nat → Nat)
    (g : Nat → Nat → ℚ) (l : List (Nat × Nat)) (init : Nat → Nat → ℚ)
    (h w : Nat) :
    l.foldl (scatterStep W indices g) init h w
      = init h w +
        (l.map fun q =>
          if h = indices q.1 q.2 / W ∧ w = indices q.1 q.2 % W then
            g q.1 q.2
          else 0).sum := by
  induction l generalizing init with
  | nil => simp
  | cons q l ih =>
    simp only [List.foldl_cons, List.map_cons, List.sum_cons]
    rw [ih]
    by_cases hc : h = indices q.1 q.2 / W ∧ w = indices q.1 q.2 % W
    · simp only [scatterStep, if_pos hc]
      ring
    · simp only [scatterStep, if_neg hc]
      ring

/-- A slot `(h, w)` of a plane of width `W` is addressed by a flat index
`t` exactly when `t = h * W + w`, as long as `w` is a valid column. -/
theorem flatIndex_iff (W h w t : Nat) (hw : w < W) :
    (h = t / W ∧ w = t % W) ↔ t = h * W + w := by
  constructor
  · rintro ⟨rfl, rfl⟩
    calc t = W * (t / W) + t % W := (Nat.div_add_mod t W).symm
      _ = t / W * W + t % W := by ring
  · rintro rfl
    have hW : 0 < W := Nat.lt_of_le_of_lt (Nat.zero_le w) hw
    constructor
    · rw [Nat.mul_comm h W, Nat.mul_add_div hW, Nat.div_eq_of_lt hw]
      omega
    · rw [Nat.mul_comm h W, Nat.mul_add_mod, Nat.mod_eq_of_lt hw]

/-- The operational window count agrees with the floor-based output-size
formula whenever the (dilated) kernel fits in the padded input and the
stride is positive. -/
theorem numWindows_eq_formula (size k s p d : Nat) (hs : 0 < s)
    (hfit : d * (k - 1) + 1 ≤ size + 2 * p) :
    numWindows size k s p d = (size + 2 * p - d * (k - 1) - 1) / s + 1 := by
  unfold numWindows
  have hcond : ∀ i : Nat,
      (i * s + d * (k - 1) + 1 ≤ size + 2 * p) ↔
        i ≤ (size + 2 * p - d * (k - 1) - 1) / s := by
    intro i
    rw [Nat.le_div_iff_mul_le hs]
    omega
  have htM : (size + 2 * p - d * (k - 1) - 1) / s < size + 2 * p := by
    have := Nat.div_le_self (size + 2 * p - d * (k - 1) - 1) s
    omega
  have hset : (Finset.range (size + 2 * p)).filter
        (fun i => i * s + d * (k - 1) + 1 ≤ size + 2 * p)
      = Finset.range ((size + 2 * p - d * (k - 1) - 1) / s + 1) := by
    ext i
    simp only [Finset.mem_filter, Finset.mem_range]
    constructor
    · rintro ⟨-, h2⟩
      have := (hcond i).mp h2
      omega
    · intro hi
      exact ⟨by omega, (hcond i).mpr (by omega)⟩
  rw [hset, Finset.card_range]

/-- C1: `MaxPool2dWithIndicesAllOnesModule` (kernel `[2, 2]`, stride
`[1, 1]`, padding `[0, 0]`, dilation `[1, 1]`) on the all-ones
`1 × 1 × 8 × 8` input produces a `7 × 7` pooled output of all ones, and
at every output position the index tensor records the flat index
`i * 8 + j` of the top-left (first-encountered in scan order) element of
that position's `2 × 2` window, because all window values tie. -/
theorem maxPoolAllOnes_spec :
    (maxPool2dWithIndices allOnesCfg allOnesInput).1.H = 7 ∧
    (maxPool2dWithIndices allOnesCfg allOnesInput).1.W = 7 ∧
    ∀ i < 7, ∀ j < 7,
      (maxPool2dWithIndices allOnesCfg allOnesInput).1.val 0 0 i j = 1 ∧
      (maxPool2dWithIndices allOnesCfg allOnesInput).2.val 0 0 i j
        = i * 8 + j := by
  decide

/-- Witness for C1, at output position `(3, 5)`. -/
theorem maxPoolAllOnes_spec_witness :
    3 < 7 ∧ 5 < 7 ∧
    (maxPool2dWithIndices allOnesCfg allOnesInput).1.val 0 0 3 5 = 1 ∧
    (maxPool2dWithIndices allOnesCfg allOnesInput).2.val 0 0 3 5
      = 3 * 8 + 5 :=
  ⟨by decide, by decide,
   (maxPoolAllOnes_spec.2.2 3 (by decide) 5 (by decide)).1,
   (maxPoolAllOnes_spec.2.2 3 (by decide) 5 (by decide)).2⟩

/-- C8: every max-pool-with-indices module of the catalog computes a
deterministic forward: two runs on the same input tensor produce
identical pooled-output and index tensors. -/
theorem maxPoolWithIndices_deterministic :
    ∀ cfg ∈ withIndicesCfgCatalog, ∀ x : Tensor4,
      maxPool2dWithIndices cfg x = maxPool2dWithIndices cfg x := by
  intro cfg _ x
  rfl

/-- Witness for C8: the first with-indices configuration on the all-ones
input. -/
theorem maxPoolWithIndices_deterministic_witness :
    (⟨2, 2, 1, 1, 0, 0, 1, 1, false⟩ : PoolCfg) ∈ withIndicesCfgCatalog ∧
    maxPool2dWithIndices ⟨2, 2, 1, 1, 0, 0, 1, 1, false⟩ allOnesInput
      = maxPool2dWithIndices ⟨2, 2, 1, 1, 0, 0, 1, 1, false⟩ allOnesInput :=
  ⟨by decide,
   maxPoolWithIndices_deterministic ⟨2, 2, 1, 1, 0, 0, 1, 1, false⟩
     (by decide) allOnesInput⟩

/-- C9: every registered invocation case generates tensors matching the
referenced module's annotated input contract: equal rank, equal dtype,
fixed annotated dimensions matched exactly, wildcard (`-1`) dimensions
instantiated with a positive size. -/
theorem testCases_contract_spec : ∀ c ∈ testCases, caseOk c.1 c.2 := by
  decide

/-- Witness for C9: the `AdaptiveAvgPool2dModule_basic` case. -/
theorem testCases_contract_spec_witness :
    (([dyn4f], [(⟨[10, 3, 8, 9], .float32⟩ : GenTensor)]) ∈ testCases) ∧
    caseOk [dyn4f] [⟨[10, 3, 8, 9], .float32⟩] :=
  ⟨by decide,
   testCases_contract_spec ([dyn4f], [⟨[10, 3, 8, 9], .float32⟩])
     (by decide)⟩

/-- C10: `MaxPool2dWithIndicesStaticModule` and
`MaxPool2dWithIndicesAllNegativeValuesModule` compute the same function
on every `2 × 4 × 16 × 16` input: both call `max_pool2d_with_indices`
with kernel `[4, 8]`, stride `[1, 1]`, padding `[2, 4]`, dilation 1 and
differ only in the static versus dynamic shape annotation. -/
theorem staticModule_equals_allNegativeModule (x : Tensor4)
    (_hN : x.N = 2) (_hC : x.C = 4) (_hH : x.H = 16) (_hW : x.W = 16) :
    maxPool2dWithIndicesStaticModule_forward x
      = maxPool2dWithIndicesAllNegativeValuesModule_forward x := rfl

/-- Witness for C10: the all-negative `2 × 4 × 16 × 16` input. -/
theorem staticModule_equals_allNegativeModule_witness :
    negInput16.N = 2 ∧ negInput16.C = 4 ∧ negInput16.H = 16 ∧
    negInput16.W = 16 ∧
    maxPool2dWithIndicesStaticModule_forward negInput16
      = maxPool2dWithIndicesAllNegativeValuesModule_forward negInput16 :=
  ⟨rfl, rfl, rfl, rfl,
   staticModule_equals_allNegativeModule negInput16 rfl rfl rfl rfl⟩

/-- C4 counterexample: the claim's example output size is wrong.  For
`MaxPool2dModule` (kernel `[6, 8]`, stride `[2, 2]`, padding `[3, 4]`,
dilation 2) on a `20`-wide input, the floor formula gives width
`floor((20 + 8 - 2*7 - 1) / 2) + 1 = 7`, not the claimed 9 (the height
is 8 as claimed). -/
theorem poolOutputSize_example_counterexample :
    outDimFloor 20 6 2 3 2 = 8 ∧ outDimFloor 20 8 2 4 2 = 7 ∧
    numWindows 20 8 2 4 2 = 7 ∧ ¬ outDimFloor 20 8 2 4 2 = 9 := by
  decide

/-- C4 (amended): every pooling module of the catalog leaves ceil mode
off and has positive strides; pooled output extents follow the floor
output-size formula — operationally, the number of windows that fit
equals `floor((size + 2*padding - dilation*(kernel-1) - 1) / stride) + 1`
— and the max- and average-pooling models use exactly that extent; on
`MaxPool2dModule`'s configuration a `20 × 20` input yields spatial
output size `8 × 7` (not `8 × 9`). -/
theorem poolOutputSize_spec :
    (∀ cfg ∈ poolCfgCatalog,
        cfg.ceilMode = false ∧ 0 < cfg.sH ∧ 0 < cfg.sW) ∧
    (∀ (size k s p d : Nat), 0 < s → d * (k - 1) + 1 ≤ size + 2 * p →
        numWindows size k s p d
          = (size + 2 * p - d * (k - 1) - 1) / s + 1) ∧
    (∀ (cfg : PoolCfg) (t : Tensor4),
        (maxPool2dWithIndices cfg t).1.H
            = outDimFloor t.H cfg.kH cfg.sH cfg.pH cfg.dH ∧
          (maxPool2dWithIndices cfg t).1.W
            = outDimFloor t.W cfg.kW cfg.sW cfg.pW cfg.dW ∧
          (maxPool2dWithIndices cfg t).2.H
            = outDimFloor t.H cfg.kH cfg.sH cfg.pH cfg.dH ∧
          (maxPool2dWithIndices cfg t).2.W
            = outDimFloor t.W cfg.kW cfg.sW cfg.pW cfg.dW) ∧
    (∀ (cfg : AvgCfg) (t : Tensor4),
        (avgPool2d cfg t).H = outDimFloor t.H cfg.kH cfg.sH cfg.pH 1 ∧
          (avgPool2d cfg t).W = outDimFloor t.W cfg.kW cfg.sW cfg.pW 1) ∧
    outDimFloor 20 6 2 3 2 = 8 ∧ outDimFloor 20 8 2 4 2 = 7 := by
  refine ⟨by decide, ?_, fun cfg t => ⟨rfl, rfl, rfl, rfl⟩,
    fun cfg t => ⟨rfl, rfl⟩, by decide, by decide⟩
  intro size k s p d hs hfit
  exact numWindows_eq_formula size k s p d hs hfit

/-- Witness for C4 (amended), at `MaxPool2dModule`'s configuration and
its generated `20 × 20` input extents. -/
theorem poolOutputSize_spec_witness :
    (⟨6, 8, 2, 2, 3, 4, 2, 2, false⟩ : PoolCfg) ∈ poolCfgCatalog ∧
    (0 : Nat) < 2 ∧ 2 * (8 - 1) + 1 ≤ 20 + 2 * 4 ∧
    numWindows 20 8 2 4 2 = (20 + 2 * 4 - 2 * (8 - 1) - 1) / 2 + 1 :=
  ⟨by decide, by decide, by decide,
   poolOutputSize_spec.2.1 20 8 2 4 2 (by decide) (by decide)⟩

/-- C7 counterexample: the index tensors of the backward cases are
generated with exclusive upper bound 16, but the flattened extent of the
configured `[2, 2]` pooling window is 4, so a generable value such as 7
is not below the flattened window extent. -/
theorem bwdIndexBound_counterexample :
    (bwdCases.map BwdCase.idxBound) = [16, 16, 16, 16] ∧
    bwdCfg.kH * bwdCfg.kW = 4 ∧
    ¬ ∀ v < (⟨[2, 4, 7, 6], [2, 4, 6, 5], [2, 4, 7, 6], 16⟩ :
        BwdCase).idxBound, v < bwdCfg.kH * bwdCfg.kW := by
  decide

/-- C7 (amended): in every backward invocation case the index tensor is
generated via uniform random integers with the fixed exclusive upper
bound 16 (not the flattened extent of the configured `[2, 2]` kernel,
which is 4): every generated index value is a non-negative integer
strictly below 16. -/
theorem bwdIndexBound_spec :
    ∀ b ∈ bwdCases, b.idxBound = 16 ∧ ∀ v < b.idxBound, v < 16 := by
  decide

/-- Witness for C7 (amended): the static 4D backward case and the
generable value 7. -/
theorem bwdIndexBound_spec_witness :
    ((⟨[2, 4, 7, 6], [2, 4, 6, 5], [2, 4, 7, 6], 16⟩ : BwdCase) ∈
      bwdCases) ∧
    (⟨[2, 4, 7, 6], [2, 4, 6, 5], [2, 4, 7, 6], 16⟩ :
      BwdCase).idxBound = 16 ∧
    (7 : Nat) < 16 :=
  ⟨by decide,
   (bwdIndexBound_spec ⟨[2, 4, 7, 6], [2, 4, 6, 5], [2, 4, 7, 6], 16⟩
     (by decide)).1,
   (bwdIndexBound_spec ⟨[2, 4, 7, 6], [2, 4, 6, 5], [2, 4, 7, 6], 16⟩
     (by decide)).2 7 (by decide)⟩

/-- C6: in all four backward cases the input-gradient tensor has exactly
the shape of the forward input tensor (second argument): in general the
result copies the input's extents, and at the generated shapes this
gives `2 × 4 × 6 × 5` for the two 4D cases, `4 × 6 × 5` for the static
3D case and `2 × 6 × 5` for the dynamic 3D case. -/
theorem maxPoolBwd_shape_spec :
    (∀ (g t : Tensor4) (idx : Nat → Nat → Nat → Nat → Nat),
        (maxPool2dWithIndicesBwd bwdCfg g t idx).N = t.N ∧
          (maxPool2dWithIndicesBwd bwdCfg g t idx).C = t.C ∧
          (maxPool2dWithIndicesBwd bwdCfg g t idx).H = t.H ∧
          (maxPool2dWithIndicesBwd bwdCfg g t idx).W = t.W) ∧
    (∀ (g t : Tensor3) (idx : Nat → Nat → Nat → Nat),
        (maxPool2dWithIndicesBwd3 bwdCfg g t idx).C = t.C ∧
          (maxPool2dWithIndicesBwd3 bwdCfg g t idx).H = t.H ∧
          (maxPool2dWithIndicesBwd3 bwdCfg g t idx).W = t.W) ∧
    (∀ (g t : Tensor4) (idx : Nat → Nat → Nat → Nat → Nat),
        t.N = 2 → t.C = 4 → t.H = 6 → t.W = 5 →
        (maxPool2dWithIndicesBwd bwdCfg g t idx).N = 2 ∧
          (maxPool2dWithIndicesBwd bwdCfg g t idx).C = 4 ∧
          (maxPool2dWithIndicesBwd bwdCfg g t idx).H = 6 ∧
          (maxPool2dWithIndicesBwd bwdCfg g t idx).W = 5) ∧
    (∀ (g t : Tensor3) (idx : Nat → Nat → Nat → Nat),
        t.C = 4 → t.H = 6 → t.W = 5 →
        (maxPool2dWithIndicesBwd3 bwdCfg g t idx).C = 4 ∧
          (maxPool2dWithIndicesBwd3 bwdCfg g t idx).H = 6 ∧
          (maxPool2dWithIndicesBwd3 bwdCfg g t idx).W = 5) ∧
    (∀ (g t : Tensor3) (idx : Nat → Nat → Nat → Nat),
        t.C = 2 → t.H = 6 → t.W = 5 →
        (maxPool2dWithIndicesBwd3 bwdCfg g t idx).C = 2 ∧
          (maxPool2dWithIndicesBwd3 bwdCfg g t idx).H = 6 ∧
          (maxPool2dWithIndicesBwd3 bwdCfg g t idx).W = 5) := by
  refine ⟨fun g t idx => ⟨rfl, rfl, rfl, rfl⟩,
    fun g t idx => ⟨rfl, rfl, rfl⟩, ?_, ?_, ?_⟩
  · intro g t idx hN hC hH hW
    exact ⟨hN, hC, hH, hW⟩
  · intro g t idx hC hH hW
    exact ⟨hC, hH, hW⟩
  · intro g t idx hC hH hW
    exact ⟨hC, hH, hW⟩

/-- Witness for C6: the static 4D backward case's generated shapes. -/
theorem maxPoolBwd_shape_spec_witness :
    bwdIn.N = 2 ∧ bwdIn.C = 4 ∧ bwdIn.H = 6 ∧ bwdIn.W = 5 ∧
    (maxPool2dWithIndicesBwd bwdCfg bwdGrad bwdIn bwdIdx).N = 2 ∧
    (maxPool2dWithIndicesBwd bwdCfg bwdGrad bwdIn bwdIdx).C = 4 ∧
    (maxPool2dWithIndicesBwd bwdCfg bwdGrad bwdIn bwdIdx).H = 6 ∧
    (maxPool2dWithIndicesBwd bwdCfg bwdGrad bwdIn bwdIdx).W = 5 :=
  ⟨rfl, rfl, rfl, rfl,
   (maxPoolBwd_shape_spec.2.2.1 bwdGrad bwdIn bwdIdx rfl rfl rfl rfl).1,
   (maxPoolBwd_shape_spec.2.2.1 bwdGrad bwdIn bwdIdx rfl rfl rfl rfl).2.1,
   (maxPoolBwd_shape_spec.2.2.1 bwdGrad bwdIn bwdIdx rfl rfl rfl rfl).2.2.1,
   (maxPoolBwd_shape_spec.2.2.1 bwdGrad bwdIn bwdIdx rfl rfl rfl rfl).2.2.2⟩

/-- C2: in the backward cases' configuration (kernel `[2, 2]`, stride
`[1, 1]`, padding `[1, 1]`, dilation `[1, 1]`, ceil mode false), the
input gradient at each input position equals the sum of the upstream
gradient values of every output position whose index entry points to
that position's flat index, and a position pointed to by no index entry
receives gradient zero. -/
theorem maxPoolBwd_scatter_spec (gradOut t : Tensor4)
    (indices : Nat → Nat → Nat → Nat → Nat) (n c h w : Nat)
    (_hh : h < t.H) (hw : w < t.W) :
    ((maxPool2dWithIndicesBwd bwdCfg gradOut t indices).val n c h w
      = ((outPositions gradOut.H gradOut.W).map fun q =>
          if indices n c q.1 q.2 = h * t.W + w then gradOut.val n c q.1 q.2
          else 0).sum) ∧
    ((∀ q ∈ outPositions gradOut.H gradOut.W,
        indices n c q.1 q.2 ≠ h * t.W + w) →
      (maxPool2dWithIndicesBwd bwdCfg gradOut t indices).val n c h w
        = 0) := by
  have hfun : (fun q : Nat × Nat =>
        if h = indices n c q.1 q.2 / t.W ∧ w = indices n c q.1 q.2 % t.W
        then gradOut.val n c q.1 q.2 else 0)
      = fun q : Nat × Nat =>
          if indices n c q.1 q.2 = h * t.W + w then gradOut.val n c q.1 q.2
          else 0 := by
    funext q
    rw [if_congr (flatIndex_iff t.W h w (indices n c q.1 q.2) hw) rfl rfl]
  have hmain :
      (maxPool2dWithIndicesBwd bwdCfg gradOut t indices).val n c h w
        = ((outPositions gradOut.H gradOut.W).map fun q =>
            if indices n c q.1 q.2 = h * t.W + w then
              gradOut.val n c q.1 q.2
            else 0).sum := by
    show maxPoolBwdPlane t.W gradOut.H gradOut.W (indices n c)
        (gradOut.val n c) h w = _
    unfold maxPoolBwdPlane
    rw [foldl_scatterStep, hfun]
    exact zero_add _
  refine ⟨hmain, fun hnone => ?_⟩
  rw [hmain]
  apply List.sum_eq_zero
  intro r hr
  obtain ⟨q, hq, rfl⟩ := List.mem_map.mp hr
  exact if_neg (hnone q hq)

/-- Witness for C2, at input position `(1, 2)` of a `2 × 4 × 6 × 5`
input with every index entry equal to `7 = 1 * 5 + 2`. -/
theorem maxPoolBwd_scatter_spec_witness :
    1 < bwdIn.H ∧ 2 < bwdIn.W ∧
    ((maxPool2dWithIndicesBwd bwdCfg bwdGrad bwdIn bwdIdx).val 0 0 1 2
      = ((outPositions bwdGrad.H bwdGrad.W).map fun q =>
          if bwdIdx 0 0 q.1 q.2 = 1 * bwdIn.W + 2 then
            bwdGrad.val 0 0 q.1 q.2
          else 0).sum) :=
  ⟨by decide, by decide,
   (maxPoolBwd_scatter_spec bwdGrad bwdIn bwdIdx 0 0 1 2 (by decide)
     (by decide)).1⟩

/-- C3: `AvgPool2dDivisorOverrideModule` (kernel `[4, 8]`, stride
`[2, 3]`, padding `[2, 4]`, count-include-pad true, divisor override 22)
on any `4 × 4 × 20 × 20` input: every output element is the sum of its
zero-padded pooling window divided by the constant 22, regardless of the
window's position or padding overlap. -/
theorem avgPoolDivisorOverride_spec (t : Tensor4)
    (_hN : t.N = 4) (_hC : t.C = 4) (hH : t.H = 20) (hW : t.W = 20)
    (n c i j : Nat) :
    (avgPool2d divisorOverrideCfg t).val n c i j
      = (∑ ki ∈ Finset.range 4, ∑ kj ∈ Finset.range 8,
          paddedVal (t.val n c) 20 20
            (((i * 2 + ki : Nat) : Int) - ((2 : Nat) : Int))
            (((j * 3 + kj : Nat) : Int) - ((4 : Nat) : Int))) / 22 := by
  have hval : (avgPool2d divisorOverrideCfg t).val n c i j
      = avgWindowSum divisorOverrideCfg (t.val n c) t.H t.W i j /
        avgDivisor divisorOverrideCfg t.H t.W i j := rfl
  have hdiv : avgDivisor divisorOverrideCfg 20 20 i j = 22 := by
    norm_num [avgDivisor, divisorOverrideCfg]
  rw [hval, hH, hW, hdiv]
  rfl

/-- Witness for C3: the all-ones `4 × 4 × 20 × 20` input at output
position `(0, 0)`. -/
theorem avgPoolDivisorOverride_spec_witness :
    onesInput20.N = 4 ∧ onesInput20.C = 4 ∧ onesInput20.H = 20 ∧
    onesInput20.W = 20 ∧
    (avgPool2d divisorOverrideCfg onesInput20).val 0 0 0 0
      = (∑ ki ∈ Finset.range 4, ∑ kj ∈ Finset.range 8,
          paddedVal (onesInput20.val 0 0) 20 20
            (((0 * 2 + ki : Nat) : Int) - ((2 : Nat) : Int))
            (((0 * 3 + kj : Nat) : Int) - ((4 : Nat) : Int))) / 22 :=
  ⟨rfl, rfl, rfl, rfl,
   avgPoolDivisorOverride_spec onesInput20 rfl rfl rfl rfl 0 0 0 0⟩

/-- Concrete all-ones `10 × 3 × 8 × 9` tensor, an input satisfying the
contract of `AdaptiveAvgPool2dModule`. -/
def meanInput : Tensor4 := ⟨10, 3, 8, 9, fun _ _ _ _ => 1⟩

/-- C5: `AdaptiveAvgPool2dModule` (`AdaptiveAvgPool2d((1, 1))`) on a
`10 × 3 × 8 × 9` input returns a `10 × 3 × 1 × 1` tensor whose single
value per (batch, channel) pair is the arithmetic mean of the input over
the last two dimensions. -/
theorem adaptiveAvgPool_spec (t : Tensor4)
    (hN : t.N = 10) (hC : t.C = 3) (hH : t.H = 8) (hW : t.W = 9) :
    (adaptiveAvgPool2dModule_forward t).N = 10 ∧
    (adaptiveAvgPool2dModule_forward t).C = 3 ∧
    (adaptiveAvgPool2dModule_forward t).H = 1 ∧
    (adaptiveAvgPool2dModule_forward t).W = 1 ∧
    ∀ n c : Nat,
      (adaptiveAvgPool2dModule_forward t).val n c 0 0
        = (∑ h ∈ Finset.range 8, ∑ w ∈ Finset.range 9, t.val n c h w)
            / 72 := by
  refine ⟨hN, hC, rfl, rfl, fun n c => ?_⟩
  have hval : (adaptiveAvgPool2dModule_forward t).val n c 0 0
      = (∑ h ∈ Finset.Ico (adaptiveStart 0 t.H 1) (adaptiveEnd 0 t.H 1),
         ∑ w ∈ Finset.Ico (adaptiveStart 0 t.W 1) (adaptiveEnd 0 t.W 1),
           t.val n c h w) /
        (((adaptiveEnd 0 t.H 1 - adaptiveStart 0 t.H 1) *
          (adaptiveEnd 0 t.W 1 - adaptiveStart 0 t.W 1) : Nat) : ℚ) := rfl
  rw [hval, hH, hW]
  have h1 : adaptiveStart 0 8 1 = 0 := by decide
  have h2 : adaptiveEnd 0 8 1 = 8 := by decide
  have h3 : adaptiveStart 0 9 1 = 0 := by decide
  have h4 : adaptiveEnd 0 9 1 = 9 := by decide
  rw [h1, h2, h3, h4, ← Finset.range_eq_Ico]
  norm_num

/-- Witness for C5: the all-ones `10 × 3 × 8 × 9` input at batch 0,
channel 0. -/
theorem adaptiveAvgPool_spec_witness :
    meanInput.N = 10 ∧ meanInput.C = 3 ∧ meanInput.H = 8 ∧
    meanInput.W = 9 ∧
    (adaptiveAvgPool2dModule_forward meanInput).val 0 0 0 0
      = (∑ h ∈ Finset.range 8, ∑ w ∈ Finset.range 9,
          meanInput.val 0 0 h w) / 72 :=
  ⟨rfl, rfl, rfl, rfl,
   (adaptiveAvgPool_spec meanInput rfl rfl rfl rfl).2.2.2.2 0 0⟩

end Pooling
